import Mathlib

/-!
Verification of the character-control core of `src/main.js` (class `Game`).

The embedding below translates, over the real numbers, the parts of the
program that the claims concern:

* `checkCollisions` (src/main.js:369-384): the circle-based displacement
  collision resolver, a sequential fold of per-obstacle push-outs over the
  registered collider list.  The pushed vector is
  `new THREE.Vector3(dx, 0, dz).normalize().multiplyScalar(overlap)`;
  `THREE.Vector3.normalize` divides by `this.length() || 1`, so a
  zero-length vector is divided by 1 and stays zero.
* `updateInput` (src/main.js:311-324): the keyboard move-vector assignments
  and the camera pitch clamp.
* `updatePlayer` zero-move branch (src/main.js:327-328):
  `velocity.lerp(new Vector3(0,0,0), 10 * deltaTime)`;
  `THREE.Vector3.lerp(v, alpha)` performs `this += (v - this) * alpha`
  componentwise, with no clamping of `alpha`.
* `onTouchMove` speed computation (src/main.js:222-237), using
  `THREE.MathUtils.lerp(x, y, t) = (1 - t) * x + t * y`.
* `onTouchEnd` (src/main.js:253-270): slot clearing keyed on touch
  identifiers.
-/

noncomputable section

/-- 3D vector mirroring the (x, y, z) components of `THREE.Vector3`. -/
@[ext] structure V3 where
  x : ℝ
  y : ℝ
  z : ℝ

/-- A static obstacle as stored in `this.colliders` (src/main.js:125, 136):
ground-plane center coordinates (`position.x`, `position.z`) and a radius. -/
structure Obstacle where
  px : ℝ
  pz : ℝ
  radius : ℝ

/-- One iteration of the for-loop body of `Game.checkCollisions`
(src/main.js:372-383).  `distance = Math.sqrt(dx*dx + dz*dz)`;
when `distance < playerRadius + collider.radius` the position is moved by
`new THREE.Vector3(dx, 0, dz).normalize().multiplyScalar(overlap)`.
The length of `(dx, 0, dz)` equals `distance`, and `normalize` divides by
`length() || 1`, embedded here as `if distance = 0 then 1 else distance`. -/
def resolveObstacle (playerRadius : ℝ) (p : V3) (collider : Obstacle) : V3 :=
  let dx := p.x - collider.px
  let dz := p.z - collider.pz
  let distance := Real.sqrt (dx * dx + dz * dz)
  let minDistance := playerRadius + collider.radius
  if distance < minDistance then
    let overlap := minDistance - distance
    let len := if distance = 0 then 1 else distance
    ⟨p.x + dx / len * overlap, p.y + 0 / len * overlap, p.z + dz / len * overlap⟩
  else
    p

/-- `Game.checkCollisions` (src/main.js:369-384): the candidate position is
mutated in place by each overlapping collider, in registration order, so the
whole resolver is a left fold of `resolveObstacle` over the collider list. -/
def checkCollisions (colliders : List Obstacle) (playerRadius : ℝ)
    (newPosition : V3) : V3 :=
  colliders.foldl (resolveObstacle playerRadius) newPosition

/-- Planar (ground-plane) distance from a position to the center of an
obstacle, exactly the `Math.sqrt(dx*dx + dz*dz)` of src/main.js:375. -/
def planarDist (p : V3) (c : Obstacle) : ℝ :=
  Real.sqrt ((p.x - c.px) * (p.x - c.px) + (p.z - c.pz) * (p.z - c.pz))

/-- The four movement key codes tested by `updateInput`
(src/main.js:314-317): the strings KeyW, KeyS, KeyA, KeyD. -/
inductive KeyCode where
  | keyW
  | keyS
  | keyA
  | keyD
deriving DecidableEq

/-- The keyboard branch of `Game.updateInput` (src/main.js:313-317):
`move.set(0, 0)` followed by four conditional assignments, in source order
(KeyW sets y to 1, KeyS sets y to -1, KeyA sets x to -1, KeyD sets x to 1).
`keys` embeds the `this.input.keys` set of held key codes. -/
def updateInputMove (keys : List KeyCode) : ℝ × ℝ :=
  let move : ℝ × ℝ := (0, 0)
  let move := if KeyCode.keyW ∈ keys then (move.1, 1) else move
  let move := if KeyCode.keyS ∈ keys then (move.1, -1) else move
  let move := if KeyCode.keyA ∈ keys then (-1, move.2) else move
  let move := if KeyCode.keyD ∈ keys then (1, move.2) else move
  move

/-- The camera-orbit angles written by `updateInput`:
`phi` is the pitch, `theta` the yaw (src/main.js:25-31). -/
structure CameraControls where
  phi : ℝ
  theta : ℝ

/-- Lines 321-323 of `Game.updateInput`: `phi = look.y`, `theta = look.x`,
then `phi = Math.max(-Math.PI/3, Math.min(Math.PI/3, phi))`.
`look` is the accumulated look input `(look.x, look.y)`. -/
def updateInputCamera (look : ℝ × ℝ) : CameraControls :=
  let phi := look.2
  let theta := look.1
  let phi := max (-(Real.pi / 3)) (min (Real.pi / 3) phi)
  { phi := phi, theta := theta }

/-- `THREE.Vector3.lerp(v, alpha)`: componentwise
`this += (v - this) * alpha`, with `alpha` not clamped. -/
def v3lerp (v target : V3) (alpha : ℝ) : V3 :=
  ⟨v.x + (target.x - v.x) * alpha,
   v.y + (target.y - v.y) * alpha,
   v.z + (target.z - v.z) * alpha⟩

/-- Line 328 of `Game.updatePlayer`, the zero-move-input branch:
`this.player.velocity.lerp(new THREE.Vector3(0,0,0), 10 * deltaTime)`. -/
def updateVelocityZeroMove (v : V3) (deltaTime : ℝ) : V3 :=
  v3lerp v ⟨0, 0, 0⟩ (10 * deltaTime)

/-- Modelled from the spec (section 4.3 step 1), for comparison with the
code: `velocity <- lerp(velocity, 0, min(1, 10 * deltaTime))`, that is, the
interpolation parameter clamped at 1.  The code has no such clamp. -/
def specVelocityDecay (v : V3) (deltaTime : ℝ) : V3 :=
  v3lerp v ⟨0, 0, 0⟩ (min 1 (10 * deltaTime))

/-- Iterating the zero-move velocity update over `n` successive frames of
equal `deltaTime` (the code runs line 328 once per frame while the move
vector stays zero). -/
def decayIter (deltaTime : ℝ) : ℕ → V3 → V3
  | 0, v => v
  | Nat.succ n, v => decayIter deltaTime n (updateVelocityZeroMove v deltaTime)

/-- `THREE.Vector3.length()`: the Euclidean magnitude. -/
def v3norm (v : V3) : ℝ :=
  Real.sqrt (v.x * v.x + v.y * v.y + v.z * v.z)

/-- `THREE.MathUtils.lerp(x, y, t) = (1 - t) * x + t * y`. -/
def lerp (x y t : ℝ) : ℝ := (1 - t) * x + t * y

/-- `this.player.baseSpeed` (src/main.js:13). -/
def baseSpeed : ℝ := 2

/-- `this.player.sprintSpeed` (src/main.js:14). -/
def sprintSpeed : ℝ := 5

/-- The speed computation of the joystick branch of `Game.onTouchMove`
(src/main.js:222-237): `diff = current - start`,
`dist = Math.min(diff.length(), 60)`, `speedRatio = dist / 60`,
`currentSpeed = THREE.MathUtils.lerp(baseSpeed, sprintSpeed, speedRatio)`. -/
def onTouchMoveSpeed (start current : ℝ × ℝ) (base sprint : ℝ) : ℝ :=
  let diffX := current.1 - start.1
  let diffY := current.2 - start.2
  let maxDist : ℝ := 60
  let dist := min (Real.sqrt (diffX * diffX + diffY * diffY)) maxDist
  let speedRatio := dist / maxDist
  lerp base sprint speedRatio

/-- The drag distance of a joystick contact:
`THREE.Vector2.length()` of `current - start`. -/
def touchDragDist (start current : ℝ × ℝ) : ℝ :=
  Real.sqrt ((current.1 - start.1) * (current.1 - start.1) +
    (current.2 - start.2) * (current.2 - start.2))

/-- The two touch-contact slots of `this.input.touch` (src/main.js:37-40).
Identifiers are `Option Nat` (`none` embeds the JS `null`); `joystick`
records whether the joystick DOM element currently exists. -/
structure TouchSlots where
  moveId : Option Nat
  moveStart : ℝ × ℝ
  moveCurrent : ℝ × ℝ
  joystick : Bool
  lookId : Option Nat
  lookStart : ℝ × ℝ

/-- The state reachable from `Game.onTouchEnd`: the aggregated move vector
`this.input.move`, `this.player.currentSpeed`, and the touch slots. -/
structure InputState where
  move : ℝ × ℝ
  currentSpeed : ℝ
  touch : TouchSlots

/-- The loop body of `Game.onTouchEnd` (src/main.js:256-269) for one changed
touch: a matching move identifier zeroes the move vector and the speed,
removes the joystick and clears the slot; a matching look identifier clears
the look slot; any other identifier leaves the state unchanged. -/
def onTouchEndTouch (s : InputState) (identifier : Nat) : InputState :=
  if some identifier = s.touch.moveId then
    { s with
        move := (0, 0)
        currentSpeed := 0
        touch := { s.touch with joystick := false, moveId := none } }
  else if some identifier = s.touch.lookId then
    { s with touch := { s.touch with lookId := none } }
  else
    s

/-- `Game.onTouchEnd` (src/main.js:253-270): the loop over
`event.changedTouches`, embedded as a fold over the identifier list. -/
def onTouchEnd (s : InputState) (changedTouches : List Nat) : InputState :=
  changedTouches.foldl onTouchEndTouch s

/-! ## Helper lemmas about the collision resolver -/

theorem checkCollisions_singleton (r : ℝ) (p : V3) (c : Obstacle) :
    checkCollisions [c] r p = resolveObstacle r p c := rfl

theorem checkCollisions_pair (r : ℝ) (p : V3) (c₁ c₂ : Obstacle) :
    checkCollisions [c₁, c₂] r p =
      resolveObstacle r (resolveObstacle r p c₁) c₂ := rfl

theorem resolveObstacle_skip (r : ℝ) (p : V3) (c : Obstacle)
    (h : ¬ planarDist p c < r + c.radius) :
    resolveObstacle r p c = p := by
  simp only [resolveObstacle]
  rw [if_neg]
  simpa [planarDist] using h

theorem resolveObstacle_push (r : ℝ) (p : V3) (c : Obstacle) (d : ℝ)
    (hd : planarDist p c = d) (hlt : d < r + c.radius) (h0 : d ≠ 0) :
    resolveObstacle r p c =
      ⟨p.x + (p.x - c.px) / d * (r + c.radius - d), p.y,
       p.z + (p.z - c.pz) / d * (r + c.radius - d)⟩ := by
  simp only [planarDist] at hd
  simp only [resolveObstacle, hd]
  rw [if_pos hlt, if_neg h0]
  ext <;> simp

theorem resolveObstacle_center (r : ℝ) (p : V3) (c : Obstacle)
    (hx : p.x = c.px) (hz : p.z = c.pz) :
    resolveObstacle r p c = p := by
  simp only [resolveObstacle, hx, hz, sub_self, mul_zero, add_zero,
    Real.sqrt_zero]
  by_cases h : (0 : ℝ) < r + c.radius
  · rw [if_pos h]
    ext <;> simp [hx, hz]
  · rw [if_neg h]

theorem planarDist_pos (p : V3) (c : Obstacle)
    (h0 : ¬(p.x = c.px ∧ p.z = c.pz)) : 0 < planarDist p c := by
  rw [planarDist, Real.sqrt_pos]
  rcases not_and_or.mp h0 with h | h
  · have hx : 0 < (p.x - c.px) * (p.x - c.px) :=
      mul_self_pos.mpr (sub_ne_zero.mpr h)
    nlinarith [mul_self_nonneg (p.z - c.pz)]
  · have hz : 0 < (p.z - c.pz) * (p.z - c.pz) :=
      mul_self_pos.mpr (sub_ne_zero.mpr h)
    nlinarith [mul_self_nonneg (p.x - c.px)]

/-- After a genuine (nonzero-distance) push, the planar distance to the
obstacle center is exactly the sum of the radii. -/
theorem planarDist_resolveObstacle_push (r : ℝ) (p : V3) (c : Obstacle)
    (h0 : ¬(p.x = c.px ∧ p.z = c.pz))
    (hlt : planarDist p c < r + c.radius) :
    planarDist (resolveObstacle r p c) c = r + c.radius := by
  set d := planarDist p c with hdef
  have hd0 : 0 < d := planarDist_pos p c h0
  have hss : (0 : ℝ) ≤ (p.x - c.px) * (p.x - c.px) + (p.z - c.pz) * (p.z - c.pz) :=
    add_nonneg (mul_self_nonneg _) (mul_self_nonneg _)
  have hs : d * d = (p.x - c.px) * (p.x - c.px) + (p.z - c.pz) * (p.z - c.pz) := by
    rw [hdef, planarDist]
    exact Real.mul_self_sqrt hss
  have hm : 0 < r + c.radius := lt_trans hd0 hlt
  rw [resolveObstacle_push r p c d rfl hlt hd0.ne']
  rw [planarDist]
  have harg :
      (p.x + (p.x - c.px) / d * (r + c.radius - d) - c.px) *
        (p.x + (p.x - c.px) / d * (r + c.radius - d) - c.px) +
      (p.z + (p.z - c.pz) / d * (r + c.radius - d) - c.pz) *
        (p.z + (p.z - c.pz) / d * (r + c.radius - d) - c.pz) =
      (r + c.radius) * (r + c.radius) := by
    have hx : p.x + (p.x - c.px) / d * (r + c.radius - d) - c.px =
        (p.x - c.px) * (r + c.radius) / d := by
      field_simp
      ring
    have hz : p.z + (p.z - c.pz) / d * (r + c.radius - d) - c.pz =
        (p.z - c.pz) * (r + c.radius) / d := by
      field_simp
      ring
    rw [hx, hz]
    have hden : d ≠ 0 := hd0.ne'
    field_simp
    nlinarith [hs]
  rw [harg]
  exact Real.sqrt_mul_self hm.le

/-! ## C1 -/

/-- C1, counterexample.  The claim says that after `checkCollisions` the
corrected position is at least `bodyRadius + obstacleRadius` (minus a small
tolerance) away from every obstacle center.  With the two obstacles
(0,0) radius 1 and (12/5, 0) radius 1, body radius 2/5, and candidate
(1, 0, 0), the first push (to x = 7/5) is undone by the second obstacle
push, leaving the corrected position at planar distance 1 from the first
obstacle center, 2/5 short of the required 7/5 - far more than any
floating-point tolerance such as 1/100. -/
theorem checkCollisions_two_obstacle_overlap :
    planarDist
        (checkCollisions [⟨0, 0, 1⟩, ⟨12/5, 0, 1⟩] (2/5) ⟨1, 0, 0⟩)
        ⟨0, 0, 1⟩ = 1 ∧
      (1 : ℝ) < 2/5 + 1 - 1/100 := by
  have h1 : planarDist (⟨1, 0, 0⟩ : V3) (⟨0, 0, 1⟩ : Obstacle) = 1 := by
    rw [planarDist]
    rw [show ((1 : ℝ) - 0) * ((1 : ℝ) - 0) + ((0 : ℝ) - 0) * ((0 : ℝ) - 0)
      = 1 * 1 by norm_num]
    exact Real.sqrt_mul_self (by norm_num)
  have hstep1 : resolveObstacle (2/5) ⟨1, 0, 0⟩ ⟨0, 0, 1⟩ = ⟨7/5, 0, 0⟩ := by
    rw [resolveObstacle_push (2/5) ⟨1, 0, 0⟩ ⟨0, 0, 1⟩ 1 h1 (by norm_num)
      (by norm_num)]
    ext <;> norm_num
  have h2 : planarDist (⟨7/5, 0, 0⟩ : V3) (⟨12/5, 0, 1⟩ : Obstacle) = 1 := by
    rw [planarDist]
    rw [show ((7/5 : ℝ) - 12/5) * ((7/5 : ℝ) - 12/5) +
      ((0 : ℝ) - 0) * ((0 : ℝ) - 0) = 1 * 1 by norm_num]
    exact Real.sqrt_mul_self (by norm_num)
  have hstep2 : resolveObstacle (2/5) ⟨7/5, 0, 0⟩ ⟨12/5, 0, 1⟩
      = ⟨1, 0, 0⟩ := by
    rw [resolveObstacle_push (2/5) ⟨7/5, 0, 0⟩ ⟨12/5, 0, 1⟩ 1 h2 (by norm_num)
      (by norm_num)]
    ext <;> norm_num
  constructor
  · rw [checkCollisions_pair, hstep1, hstep2, h1]
  · norm_num

/-- C1, amended.  For a single obstacle whose center does not planarly
coincide with the candidate position, the corrected position is at planar
distance at least `bodyRadius + obstacleRadius` from the obstacle center
(exactly, with no tolerance needed).  With several obstacles a later push
can reintroduce overlap with an earlier obstacle, and at exact center
coincidence no push occurs, so those cases are excluded. -/
theorem checkCollisions_single_separation (c : Obstacle) (r : ℝ) (p : V3)
    (h0 : ¬(p.x = c.px ∧ p.z = c.pz)) :
    r + c.radius ≤ planarDist (checkCollisions [c] r p) c := by
  rw [checkCollisions_singleton]
  by_cases hlt : planarDist p c < r + c.radius
  · rw [planarDist_resolveObstacle_push r p c h0 hlt]
  · rw [resolveObstacle_skip r p c hlt]
    exact le_of_not_lt hlt

/-- C1, witness: concrete instance of the amended theorem, with the obstacle
at (0,0) radius 1, body radius 2/5 and candidate (1/2, 0, 0). -/
theorem checkCollisions_single_separation_witness :
    ¬((⟨1/2, 0, 0⟩ : V3).x = (⟨0, 0, 1⟩ : Obstacle).px ∧
        (⟨1/2, 0, 0⟩ : V3).z = (⟨0, 0, 1⟩ : Obstacle).pz) ∧
      (2/5 : ℝ) + (⟨0, 0, 1⟩ : Obstacle).radius ≤
        planarDist (checkCollisions [⟨0, 0, 1⟩] (2/5) ⟨1/2, 0, 0⟩)
          ⟨0, 0, 1⟩ :=
  ⟨by norm_num,
   checkCollisions_single_separation ⟨0, 0, 1⟩ (2/5) ⟨1/2, 0, 0⟩
     (by norm_num)⟩

/-! ## C5 -/

/-- C5: after every per-frame input update, whatever the accumulated look
input (hence whatever the history of mouse or touch deltas folded into it),
the camera pitch `phi` lies in the interval [-pi/3, pi/3]. -/
theorem updateInputCamera_pitch_clamped (look : ℝ × ℝ) :
    -(Real.pi / 3) ≤ (updateInputCamera look).phi ∧
      (updateInputCamera look).phi ≤ Real.pi / 3 := by
  have hpi : (0 : ℝ) < Real.pi / 3 := by positivity
  simp only [updateInputCamera]
  constructor
  · exact le_max_left _ _
  · exact max_le (by linarith) (min_le_left _ _)

/-! ## C10 -/

/-- C10: the collision resolver never changes the y coordinate: every push
vector has the form `(dx, 0, dz).normalize().multiplyScalar(overlap)`, whose
y component is zero, so only x and z can differ between the candidate and
the corrected position. -/
theorem checkCollisions_preserves_y (colliders : List Obstacle) (r : ℝ)
    (p : V3) : (checkCollisions colliders r p).y = p.y := by
  induction colliders generalizing p with
  | nil => rfl
  | cons c cs ih =>
    have hy : (resolveObstacle r p c).y = p.y := by
      simp only [resolveObstacle]
      split
      · simp
      · rfl
    calc (checkCollisions (c :: cs) r p).y
        = (checkCollisions cs r (resolveObstacle r p c)).y := rfl
      _ = (resolveObstacle r p c).y := ih _
      _ = p.y := hy

/-! ## C2 -/

/-- C2, counterexample.  The claim says that at exact center coincidence the
resolver pushes along a deterministic fallback direction (such as unit +X).
In fact `THREE.Vector3.normalize` divides by `length() || 1`, so the zero
direction vector stays zero and the push vector is zero: with the obstacle
at (0,0) radius 1, body radius 2/5, and the candidate exactly at the center,
the corrected position equals the candidate and its planar distance to the
center is still 0, far inside the required 7/5.  (The output is a plain
finite vector and the resolver is a total function, so the finiteness and
no-raise parts of the claim do hold.) -/
theorem checkCollisions_center_no_push :
    checkCollisions [⟨0, 0, 1⟩] (2/5) ⟨0, 0, 0⟩ = ⟨0, 0, 0⟩ ∧
      planarDist (⟨0, 0, 0⟩ : V3) ⟨0, 0, 1⟩ = 0 ∧
      (0 : ℝ) < 2/5 + 1 := by
  refine ⟨?_, ?_, by norm_num⟩
  · rw [checkCollisions_singleton]
    exact resolveObstacle_center (2/5) ⟨0, 0, 0⟩ ⟨0, 0, 1⟩ rfl rfl
  · rw [planarDist]
    norm_num

/-- C2, amended.  When the candidate planarly coincides with the center of
the (single) obstacle, the resolver returns the candidate unchanged: the
guarded normalization makes the push vector zero, so the result is a
perfectly ordinary (finite) vector, computed deterministically and with no
exception - but no fallback push direction is applied. -/
theorem checkCollisions_center_fixed (c : Obstacle) (r : ℝ) (p : V3)
    (hx : p.x = c.px) (hz : p.z = c.pz) :
    checkCollisions [c] r p = p := by
  rw [checkCollisions_singleton]
  exact resolveObstacle_center r p c hx hz

/-- C2, witness: concrete instance of the amended theorem with the obstacle
at (3,4) radius 2, body radius 1 and candidate (3, 7, 4). -/
theorem checkCollisions_center_fixed_witness :
    (⟨3, 7, 4⟩ : V3).x = (⟨3, 4, 2⟩ : Obstacle).px ∧
      (⟨3, 7, 4⟩ : V3).z = (⟨3, 4, 2⟩ : Obstacle).pz ∧
      checkCollisions [⟨3, 4, 2⟩] 1 ⟨3, 7, 4⟩ = ⟨3, 7, 4⟩ :=
  ⟨rfl, rfl, checkCollisions_center_fixed ⟨3, 4, 2⟩ 1 ⟨3, 7, 4⟩ rfl rfl⟩

/-! ## C6 -/

/-- C6: Scenario A.  With the single obstacle at (0,0) of radius 1, body
radius 2/5, and candidate (1/2, 0, 0), the corrected position is exactly
(7/5, 0, 0): x is at least 1.4 (the push is entirely along +x) and z is
unchanged at 0. -/
theorem checkCollisions_scenario_A :
    checkCollisions [⟨0, 0, 1⟩] (2/5) ⟨1/2, 0, 0⟩ = ⟨7/5, 0, 0⟩ ∧
      (1.4 : ℝ) ≤ (checkCollisions [⟨0, 0, 1⟩] (2/5) ⟨1/2, 0, 0⟩).x ∧
      (checkCollisions [⟨0, 0, 1⟩] (2/5) ⟨1/2, 0, 0⟩).z = 0 := by
  have hd : planarDist (⟨1/2, 0, 0⟩ : V3) (⟨0, 0, 1⟩ : Obstacle) = 1/2 := by
    rw [planarDist]
    rw [show ((1/2 : ℝ) - 0) * ((1/2 : ℝ) - 0) + ((0 : ℝ) - 0) * ((0 : ℝ) - 0)
      = (1/2) * (1/2) by norm_num]
    exact Real.sqrt_mul_self (by norm_num)
  have hres : checkCollisions [⟨0, 0, 1⟩] (2/5) ⟨1/2, 0, 0⟩ = ⟨7/5, 0, 0⟩ := by
    rw [checkCollisions_singleton]
    rw [resolveObstacle_push (2/5) ⟨1/2, 0, 0⟩ ⟨0, 0, 1⟩ (1/2) hd (by norm_num)
      (by norm_num)]
    ext <;> norm_num
  refine ⟨hres, ?_, ?_⟩
  · rw [hres]
    norm_num
  · rw [hres]

/-! ## C7 -/

/-- C7, counterexample.  The claim says that for every obstacle set,
re-running the resolver on its own output moves the position by at most a
small epsilon.  With the obstacles (0,0) radius 1 and (2,0) radius 13/5 and
body radius 2/5, the candidate (1,0,0) resolves to (-1,0,0), but resolving
(-1,0,0) again gives (-7/5,0,0): the second application moves the position
by 2/5, a radius-scale displacement rather than a floating-point
tolerance. -/
theorem checkCollisions_not_idempotent :
    checkCollisions [⟨0, 0, 1⟩, ⟨2, 0, 13/5⟩] (2/5)
        (checkCollisions [⟨0, 0, 1⟩, ⟨2, 0, 13/5⟩] (2/5) ⟨1, 0, 0⟩) ≠
      checkCollisions [⟨0, 0, 1⟩, ⟨2, 0, 13/5⟩] (2/5) ⟨1, 0, 0⟩ := by
  have d1 : planarDist (⟨1, 0, 0⟩ : V3) (⟨0, 0, 1⟩ : Obstacle) = 1 := by
    rw [planarDist]
    rw [show ((1 : ℝ) - 0) * ((1 : ℝ) - 0) + ((0 : ℝ) - 0) * ((0 : ℝ) - 0)
      = 1 * 1 by norm_num]
    exact Real.sqrt_mul_self (by norm_num)
  have s1 : resolveObstacle (2/5) ⟨1, 0, 0⟩ ⟨0, 0, 1⟩ = ⟨7/5, 0, 0⟩ := by
    rw [resolveObstacle_push (2/5) ⟨1, 0, 0⟩ ⟨0, 0, 1⟩ 1 d1 (by norm_num)
      (by norm_num)]
    ext <;> norm_num
  have d2 : planarDist (⟨7/5, 0, 0⟩ : V3) (⟨2, 0, 13/5⟩ : Obstacle) = 3/5 := by
    rw [planarDist]
    rw [show ((7/5 : ℝ) - 2) * ((7/5 : ℝ) - 2) + ((0 : ℝ) - 0) * ((0 : ℝ) - 0)
      = (3/5) * (3/5) by norm_num]
    exact Real.sqrt_mul_self (by norm_num)
  have s2 : resolveObstacle (2/5) ⟨7/5, 0, 0⟩ ⟨2, 0, 13/5⟩ = ⟨-1, 0, 0⟩ := by
    rw [resolveObstacle_push (2/5) ⟨7/5, 0, 0⟩ ⟨2, 0, 13/5⟩ (3/5) d2
      (by norm_num) (by norm_num)]
    ext <;> norm_num
  have hinner : checkCollisions [⟨0, 0, 1⟩, ⟨2, 0, 13/5⟩] (2/5) ⟨1, 0, 0⟩
      = ⟨-1, 0, 0⟩ := by
    rw [checkCollisions_pair, s1, s2]
  have d3 : planarDist (⟨-1, 0, 0⟩ : V3) (⟨0, 0, 1⟩ : Obstacle) = 1 := by
    rw [planarDist]
    rw [show ((-1 : ℝ) - 0) * ((-1 : ℝ) - 0) + ((0 : ℝ) - 0) * ((0 : ℝ) - 0)
      = 1 * 1 by norm_num]
    exact Real.sqrt_mul_self (by norm_num)
  have s3 : resolveObstacle (2/5) ⟨-1, 0, 0⟩ ⟨0, 0, 1⟩ = ⟨-7/5, 0, 0⟩ := by
    rw [resolveObstacle_push (2/5) ⟨-1, 0, 0⟩ ⟨0, 0, 1⟩ 1 d3 (by norm_num)
      (by norm_num)]
    ext <;> norm_num
  have d4 : planarDist (⟨-7/5, 0, 0⟩ : V3) (⟨2, 0, 13/5⟩ : Obstacle)
      = 17/5 := by
    rw [planarDist]
    rw [show ((-7/5 : ℝ) - 2) * ((-7/5 : ℝ) - 2) + ((0 : ℝ) - 0) * ((0 : ℝ) - 0)
      = (17/5) * (17/5) by norm_num]
    exact Real.sqrt_mul_self (by norm_num)
  have s4 : resolveObstacle (2/5) ⟨-7/5, 0, 0⟩ ⟨2, 0, 13/5⟩
      = ⟨-7/5, 0, 0⟩ := by
    refine resolveObstacle_skip (2/5) ⟨-7/5, 0, 0⟩ ⟨2, 0, 13/5⟩ ?_
    rw [d4]
    norm_num
  have houter : checkCollisions [⟨0, 0, 1⟩, ⟨2, 0, 13/5⟩] (2/5)
      (checkCollisions [⟨0, 0, 1⟩, ⟨2, 0, 13/5⟩] (2/5) ⟨1, 0, 0⟩)
      = ⟨-7/5, 0, 0⟩ := by
    rw [hinner, checkCollisions_pair, s3, s4]
  rw [houter, hinner]
  intro h
  have hx := congrArg V3.x h
  norm_num at hx

/-- C7, amended.  For obstacle sets with at most one obstacle the resolver
is an exact fixed point on its own output: after a push the planar distance
equals the sum of the radii, so the overlap test fails on the second run and
the position is returned unchanged.  (With several obstacles the additive
pass can leave residual overlap and a second application can move the
position by a radius-scale amount.) -/
theorem checkCollisions_single_idempotent (c : Obstacle) (r : ℝ) (p : V3) :
    checkCollisions [c] r (checkCollisions [c] r p) =
      checkCollisions [c] r p := by
  rw [checkCollisions_singleton, checkCollisions_singleton]
  by_cases h0 : p.x = c.px ∧ p.z = c.pz
  · rw [resolveObstacle_center r p c h0.1 h0.2,
      resolveObstacle_center r p c h0.1 h0.2]
  · by_cases hlt : planarDist p c < r + c.radius
    · have hfull := planarDist_resolveObstacle_push r p c h0 hlt
      refine resolveObstacle_skip r _ c ?_
      rw [hfull]
      exact lt_irrefl _
    · rw [resolveObstacle_skip r p c hlt, resolveObstacle_skip r p c hlt]

/-! ## C3 -/

/-- C3, counterexample.  The claim says that opposing keys cancel to 0 on
their axis (move.y = (+1 if KeyW held) + (-1 if KeyS held)).  The code uses
overwriting assignments, not sums: with KeyW and KeyS both held, the KeyS
assignment (line 315) overwrites the KeyW one (line 314), so move.y is -1,
not 0. -/
theorem updateInputMove_opposing_keys :
    updateInputMove [KeyCode.keyW, KeyCode.keyS] = (0, -1) ∧
      ((-1 : ℝ) ≠ 0) := by
  constructor
  · simp [updateInputMove]
  · norm_num

/-- C3, amended.  The additive formula of the claim holds whenever the two
keys of an axis are not both held; when both are held, the later assignment
in source order wins (KeyS beats KeyW, so move.y = -1; KeyD beats KeyA, so
move.x = 1). -/
theorem updateInputMove_additive (keys : List KeyCode)
    (hx : ¬(KeyCode.keyA ∈ keys ∧ KeyCode.keyD ∈ keys))
    (hy : ¬(KeyCode.keyW ∈ keys ∧ KeyCode.keyS ∈ keys)) :
    updateInputMove keys =
      ((if KeyCode.keyD ∈ keys then (1 : ℝ) else 0) +
          (if KeyCode.keyA ∈ keys then (-1 : ℝ) else 0),
        (if KeyCode.keyW ∈ keys then (1 : ℝ) else 0) +
          (if KeyCode.keyS ∈ keys then (-1 : ℝ) else 0)) := by
  by_cases hW : KeyCode.keyW ∈ keys <;> by_cases hS : KeyCode.keyS ∈ keys <;>
    by_cases hA : KeyCode.keyA ∈ keys <;> by_cases hD : KeyCode.keyD ∈ keys <;>
    first
      | exact absurd (And.intro hA hD) hx
      | exact absurd (And.intro hW hS) hy
      | simp [updateInputMove, hW, hS, hA, hD]

/-- C3, witness: concrete instance of the amended theorem with KeyW and KeyD
held (forward-right). -/
theorem updateInputMove_additive_witness :
    ¬(KeyCode.keyA ∈ [KeyCode.keyW, KeyCode.keyD] ∧
        KeyCode.keyD ∈ [KeyCode.keyW, KeyCode.keyD]) ∧
      ¬(KeyCode.keyW ∈ [KeyCode.keyW, KeyCode.keyD] ∧
          KeyCode.keyS ∈ [KeyCode.keyW, KeyCode.keyD]) ∧
      updateInputMove [KeyCode.keyW, KeyCode.keyD] =
        ((if KeyCode.keyD ∈ [KeyCode.keyW, KeyCode.keyD] then (1 : ℝ) else 0) +
            (if KeyCode.keyA ∈ [KeyCode.keyW, KeyCode.keyD] then (-1 : ℝ) else 0),
          (if KeyCode.keyW ∈ [KeyCode.keyW, KeyCode.keyD] then (1 : ℝ) else 0) +
            (if KeyCode.keyS ∈ [KeyCode.keyW, KeyCode.keyD] then (-1 : ℝ) else 0)) :=
  ⟨by decide, by decide,
    updateInputMove_additive [KeyCode.keyW, KeyCode.keyD] (by decide) (by decide)⟩

/-! ## C4 -/

/-- C4, counterexample.  The claim says the zero-move velocity update is
`lerp(velocity, 0, min(1, 10 * deltaTime))`.  `THREE.Vector3.lerp` does not
clamp its parameter: at deltaTime = 1/5 the code multiplies the velocity by
1 - 10 * (1/5) = -1 (so (1,0,0) becomes (-1,0,0)), while the claimed clamped
update would return (0,0,0). -/
theorem updateVelocityZeroMove_unclamped :
    updateVelocityZeroMove ⟨1, 0, 0⟩ (1/5) ≠ specVelocityDecay ⟨1, 0, 0⟩ (1/5) := by
  intro h
  have hx := congrArg V3.x h
  simp only [updateVelocityZeroMove, specVelocityDecay, v3lerp] at hx
  rw [show min (1 : ℝ) (10 * (1/5)) = 1 by norm_num] at hx
  norm_num at hx

theorem updateVelocityZeroMove_eq (v : V3) (dt : ℝ) :
    updateVelocityZeroMove v dt =
      ⟨(1 - 10 * dt) * v.x, (1 - 10 * dt) * v.y, (1 - 10 * dt) * v.z⟩ := by
  simp only [updateVelocityZeroMove, v3lerp]
  ext <;> dsimp <;> ring

theorem v3norm_scale (c : ℝ) (v : V3) :
    v3norm ⟨c * v.x, c * v.y, c * v.z⟩ = |c| * v3norm v := by
  simp only [v3norm]
  rw [show c * v.x * (c * v.x) + c * v.y * (c * v.y) + c * v.z * (c * v.z)
    = (c * c) * (v.x * v.x + v.y * v.y + v.z * v.z) by ring]
  rw [Real.sqrt_mul (mul_self_nonneg c), Real.sqrt_mul_self_eq_abs]

theorem v3norm_decayIter (dt : ℝ) (n : ℕ) (v : V3) :
    v3norm (decayIter dt n v) = |1 - 10 * dt| ^ n * v3norm v := by
  induction n generalizing v with
  | zero => simp [decayIter]
  | succ n ih =>
    simp only [decayIter]
    rw [ih, updateVelocityZeroMove_eq, v3norm_scale, pow_succ]
    ring

/-- C4, amended.  The per-frame zero-move update is the unclamped
`velocity <- velocity + (0 - velocity) * (10 * deltaTime)`.  For any fixed
deltaTime with 0 < deltaTime < 1/5 (in particular every realistic frame
time), sustaining zero move input does drive the velocity magnitude below
any positive epsilon; at deltaTime >= 1/5 the scale factor has magnitude at
least 1 and the claimed convergence fails. -/
theorem decayIter_converges (v : V3) (dt eps : ℝ)
    (h1 : 0 < dt) (h2 : dt < 1/5) (heps : 0 < eps) :
    ∃ N, ∀ n, N ≤ n → v3norm (decayIter dt n v) < eps := by
  set r := |1 - 10 * dt| with hr
  have hr0 : 0 ≤ r := abs_nonneg _
  have hr1 : r < 1 := by
    rw [hr]
    rw [abs_lt]
    constructor <;> linarith
  set c := v3norm v with hc
  have hc0 : 0 ≤ c := Real.sqrt_nonneg _
  have hc1 : (0 : ℝ) < c + 1 := by linarith
  obtain ⟨N, hN⟩ := exists_pow_lt_of_lt_one (div_pos heps hc1) hr1
  refine ⟨N, fun n hn => ?_⟩
  rw [v3norm_decayIter]
  have hpow : r ^ n ≤ r ^ N := pow_le_pow_of_le_one hr0 hr1.le hn
  calc r ^ n * c ≤ r ^ N * c := mul_le_mul_of_nonneg_right hpow hc0
    _ ≤ (eps / (c + 1)) * c := mul_le_mul_of_nonneg_right hN.le hc0
    _ < eps := by
        rw [div_mul_eq_mul_div, div_lt_iff₀ hc1]
        nlinarith

/-- C4, witness: concrete instance of the amended theorem with starting
velocity (1,0,0), deltaTime = 1/10 and epsilon = 1. -/
theorem decayIter_converges_witness :
    (0 : ℝ) < 1/10 ∧ (1/10 : ℝ) < 1/5 ∧ (0 : ℝ) < 1 ∧
      ∃ N, ∀ n, N ≤ n → v3norm (decayIter (1/10) n ⟨1, 0, 0⟩) < 1 :=
  ⟨by norm_num, by norm_num, by norm_num,
    decayIter_converges ⟨1, 0, 0⟩ (1/10) 1 (by norm_num) (by norm_num)
      (by norm_num)⟩

/-! ## C8 -/

/-- C8: on a joystick touch-move the speed scalar is the linear
interpolation between baseSpeed and sprintSpeed with parameter
`min(dragDistance, 60) / 60`; in particular a 30-pixel drag under the
60-pixel cap yields `lerp(baseSpeed, sprintSpeed, 1/2) = 7/2`. -/
theorem onTouchMoveSpeed_lerp :
    (∀ start current : ℝ × ℝ,
        onTouchMoveSpeed start current baseSpeed sprintSpeed =
          lerp baseSpeed sprintSpeed (min (touchDragDist start current) 60 / 60)) ∧
      onTouchMoveSpeed (0, 0) (30, 0) baseSpeed sprintSpeed =
        lerp baseSpeed sprintSpeed (1/2) ∧
      onTouchMoveSpeed (0, 0) (30, 0) baseSpeed sprintSpeed = 7/2 := by
  have hgen : ∀ start current : ℝ × ℝ,
      onTouchMoveSpeed start current baseSpeed sprintSpeed =
        lerp baseSpeed sprintSpeed (min (touchDragDist start current) 60 / 60) :=
    fun start current => rfl
  have hdist : touchDragDist (0, 0) (30, 0) = 30 := by
    rw [touchDragDist]
    rw [show ((30 : ℝ) - 0) * ((30 : ℝ) - 0) + ((0 : ℝ) - 0) * ((0 : ℝ) - 0)
      = 30 * 30 by norm_num]
    exact Real.sqrt_mul_self (by norm_num)
  have h30 : onTouchMoveSpeed (0, 0) (30, 0) baseSpeed sprintSpeed =
      lerp baseSpeed sprintSpeed (1/2) := by
    rw [hgen, hdist]
    norm_num
  refine ⟨hgen, h30, ?_⟩
  rw [h30]
  rw [lerp, baseSpeed, sprintSpeed]
  norm_num

/-! ## C9 -/

/-- C9: a touch-end or touch-cancel whose identifier matches neither the
move slot nor the look slot leaves the whole touch-reachable state (move
vector, current speed, both slots and the joystick widget flag) unchanged;
the handler is a total function, so no error is raised. -/
theorem onTouchEnd_untracked_id (s : InputState) (t : Nat)
    (hm : some t ≠ s.touch.moveId) (hl : some t ≠ s.touch.lookId) :
    onTouchEnd s [t] = s := by
  simp only [onTouchEnd, List.foldl]
  rw [onTouchEndTouch, if_neg hm, if_neg hl]

/-- C9, witness: concrete state tracking move identifier 0 and no look
identifier, receiving a touch-end for the untracked identifier 7. -/
theorem onTouchEnd_untracked_id_witness :
    (some 7 ≠ (⟨(1, 2), 3, ⟨some 0, (0, 0), (0, 0), true, none, (0, 0)⟩⟩ :
        InputState).touch.moveId) ∧
      (some 7 ≠ (⟨(1, 2), 3, ⟨some 0, (0, 0), (0, 0), true, none, (0, 0)⟩⟩ :
          InputState).touch.lookId) ∧
      onTouchEnd ⟨(1, 2), 3, ⟨some 0, (0, 0), (0, 0), true, none, (0, 0)⟩⟩ [7] =
        ⟨(1, 2), 3, ⟨some 0, (0, 0), (0, 0), true, none, (0, 0)⟩⟩ :=
  ⟨by decide, by decide,
    onTouchEnd_untracked_id _ 7 (by decide) (by decide)⟩
